import Mathlib

/-!
Shallow embedding of the mapping dispatch and offset-commit coordinator
(src/mapping3.py and src/mapping4.py).

Network I/O is abstracted by an `HttpBehavior` input describing what the one
HTTP POST of a dispatch attempt does (its status code, or which exception it
raises); everything downstream of that input is translated directly from the
Python source.  Times are modelled as exact rationals; `time.time() * 1000`
(milliseconds since the epoch) becomes the `now_ms` field of the coordinator
configuration.
-/

namespace MappingDispatch

/-- Result vocabulary of a dispatch attempt (mapping3.py lines 8-14). -/
inductive Result
  | SUCCEED
  | INVALID_EVENT
  | ENGINE_INTERNAL_ERROR
  | ENGINE_CONNECTION_ERROR
  | TIMEOUT
  | UNDEFINED_ERROR
  deriving DecidableEq, Repr

/-- Membership in `result_for_retry` (mapping3.py lines 179-183; the same set
appears in mapping4.py line 174). -/
def resultForRetry : Result → Bool
  | Result.ENGINE_INTERNAL_ERROR => true
  | Result.ENGINE_CONNECTION_ERROR => true
  | Result.TIMEOUT => true
  | _ => false

/-- Abstract behaviour of the single HTTP POST performed by one dispatch
attempt: the server answers with a status code, or the client raises a
connection error, a timeout (the request exceeded `request_timeout`), or some
other exception. -/
inductive HttpBehavior
  | status (n : ℕ)
  | connError
  | timeoutErr
  | otherExc
  deriving DecidableEq, Repr

/-- Status/exception classification of a dispatch call.  This is the shared
body of `AsyncOrenctlEngine.ingest` (mapping3.py lines 54-79) and of the
request part of `run_playbook` (mapping3.py lines 121-152): status 200 and 500
are classified, `aiohttp.ClientConnectionError`, `asyncio.TimeoutError` and
any other exception are caught, and any other status code falls off the end of
the function, which in Python returns `None` — hence the `Option`. -/
def classifyResponse : HttpBehavior → Option Result
  | HttpBehavior.status n =>
      if n = 200 then some Result.SUCCEED
      else if n = 500 then some Result.ENGINE_INTERNAL_ERROR
      else none
  | HttpBehavior.connError => some Result.ENGINE_CONNECTION_ERROR
  | HttpBehavior.timeoutErr => some Result.TIMEOUT
  | HttpBehavior.otherExc => some Result.UNDEFINED_ERROR

/-- `AsyncOrenctlEngine.ingest` (mapping3.py lines 33-79), with the request
itself abstracted into its `HttpBehavior`. -/
def ingest (http : HttpBehavior) : Option Result :=
  classifyResponse http

/-- Values stored in an event dictionary, as far as the dispatch core
inspects them: strings, `None`, and nested dictionaries. -/
inductive EVal
  | vstr (s : String)
  | vnone
  | vdict (entries : List (String × EVal))

/-- An event (or any Python dict) as an association list, first binding
wins on lookup. -/
def Event : Type := List (String × EVal)

/-- `d.get(key)` / `d[key]` for missing-key-as-`none`. -/
def getKey : List (String × EVal) → String → Option EVal
  | [], _ => none
  | (k, v) :: rest, key => if k = key then some v else getKey rest key

/-- `d[key] = v`: overwrite the first binding of `key`, or append one. -/
def setKey : List (String × EVal) → String → EVal → List (String × EVal)
  | [], key, v => [(key, v)]
  | (k, w) :: rest, key, v =>
      if k = key then (key, v) :: rest else (k, w) :: setKey rest key v

/-- Python truthiness of a possibly-missing event value (`None` and missing
are falsy, an empty string or empty dict is falsy). -/
def truthyE : Option EVal → Bool
  | none => false
  | some EVal.vnone => false
  | some (EVal.vstr s) => if s = "" then false else true
  | some (EVal.vdict d) => if d.isEmpty then false else true

/-- Python truthiness of an optional string argument. -/
def truthyOptStr : Option String → Bool
  | none => false
  | some s => if s = "" then false else true

/-- Outcome of a call to `run_playbook`: either it raises (only possible when
`event["data"]` is truthy but not a dict, so `.get` is not defined on it), or
it returns, yielding the returned value (`none` models Python's implicit
`None` on an unclassified status), the state of the event dict after the call,
and the number of network calls issued. -/
inductive RPOut
  | raised
  | ok (result : Option Result) (event : Event) (calls : ℕ)

/-- Resolution of the playbook id in `run_playbook` (mapping3.py lines
106-107): if `event.get("data")` is truthy, `playbook_id = playbook_id or
event["data"].get("playbook_id")`; the outer `Option` is `none` when the code
would raise (truthy non-dict `data`). -/
def resolvePb (event : Event) (playbook_id : Option String) :
    Option (Option EVal) :=
  if truthyE (getKey event "data") then
    match getKey event "data" with
    | some (EVal.vdict d) =>
        some (if truthyOptStr playbook_id then Option.map EVal.vstr playbook_id
              else getKey d "playbook_id")
    | _ => none
  else
    some (Option.map EVal.vstr playbook_id)

/-- `run_playbook` (mapping3.py lines 81-152).  `config_id` is also resolved
by the source but only influences the request body, which is not observable
here; the URL building and logging are likewise unobservable.  The source
checks `if not playbook_id: return Result.INVALID_EVENT` before any network
call and before the `event["extra_info"] = extra_info` assignment; on the
non-`INVALID_EVENT` path it performs that assignment and then exactly one POST
whose outcome is classified by `classifyResponse`. -/
def run_playbook (event : Event) (playbook_id config_id : Option String)
    (extra_info : EVal) (http : HttpBehavior) : RPOut :=
  match resolvePb event playbook_id with
  | none => RPOut.raised
  | some pb =>
      if truthyE pb then
        RPOut.ok (classifyResponse http) (setKey event "extra_info" extra_info) 1
      else
        RPOut.ok (some Result.INVALID_EVENT) event 0

/-- No playbook id is present in the event's data: `event["data"]` is missing,
`None`, empty, or a dict whose `playbook_id` entry is missing or falsy (an
untruthy non-dict `data` is also covered, as it yields no fallback). -/
def noDataPlaybook (event : Event) : Bool :=
  match getKey event "data" with
  | none => true
  | some EVal.vnone => true
  | some (EVal.vstr s) => if s = "" then true else false
  | some (EVal.vdict d) => !(truthyE (getKey d "playbook_id"))

/-- One effect observable from the offset-commit coordinator: an offset-commit
call `kafka_client._commit({partition: offset})` (with `failed = true` when
the stream client raised on that call), or an `asyncio.sleep`/`time.sleep` of
the given number of seconds. -/
inductive Effect
  | commitCall (partition : ℤ) (offset : ℤ) (failed : Bool)
  | sleep (secs : ℚ)
  deriving DecidableEq, Repr

/-- Per-mapping configuration of `process_mappings_async` (mapping3.py lines
154-175): whether a `kafka_client` was supplied, the partition and offset of
the event being processed, the `time_commit` deadline, and the value of
`time.time() * 1000` (milliseconds) when the terminal branch reads the clock. -/
structure Cfg where
  hasKafka : Bool
  partition : ℤ
  offset : ℤ
  time_commit : Option ℚ
  now_ms : ℚ
  deriving DecidableEq, Repr

/-- `timeleft = time_commit - time.time() * 1000 if time_commit else 0`
(mapping3.py line 235): a missing (or zero, hence falsy) `time_commit` gives
`0`. -/
def timeleft (cfg : Cfg) : ℚ :=
  match cfg.time_commit with
  | none => 0
  | some t => if t = 0 then 0 else t - cfg.now_ms

/-- What one iteration of the retry loop does after the dispatch call, as
supplied by the environment: the dispatch returned a `Result`, returned
Python `None` (unclassified status), or raised. -/
inductive DispatchOutcome
  | ret (r : Result)
  | noneRes
  | raised
  deriving DecidableEq, Repr

/-- Environment of one loop iteration: the dispatch outcome, and whether the
offset-commit call (if one is issued in this iteration) raises. -/
structure StepSpec where
  outcome : DispatchOutcome
  commitFails : Bool
  deriving DecidableEq, Repr

/-- The terminal (non-retryable) branch of the loop body (mapping3.py lines
233-249): compute `timeleft`; if `timeleft < 1.5` commit `offset + 1`, a
failure of that commit being caught, logged and followed by `asyncio.sleep(10)`
(with no `kafka_client` the attribute access on `None` raises and lands in the
same handler); then set `next_condition = True` (the returned `Bool`). -/
def terminalStep (cfg : Cfg) (s : StepSpec) : List Effect × Bool :=
  if timeleft cfg < 1.5 then
    if cfg.hasKafka then
      if s.commitFails then
        ([Effect.commitCall cfg.partition (cfg.offset + 1) true, Effect.sleep 10], true)
      else
        ([Effect.commitCall cfg.partition (cfg.offset + 1) false], true)
    else ([Effect.sleep 10], true)
  else ([], true)

/-- One iteration of the `while` body of `process_mappings_async`
(mapping3.py lines 196-254).  A retryable result commits the *current* offset
(guarded by `if kafka_client:`), then increments `retry_count` and sleeps 1
second; if that commit raises, the outer `except` handler performs the same
increment and 1-second sleep, so the observable effects coincide.  An
exception from the dispatch itself also lands in the outer handler (1-second
sleep, no commit).  Any other outcome takes the terminal branch. -/
def stepEffects (cfg : Cfg) (s : StepSpec) : List Effect × Bool :=
  match s.outcome with
  | DispatchOutcome.raised => ([Effect.sleep 1], false)
  | DispatchOutcome.noneRes => terminalStep cfg s
  | DispatchOutcome.ret r =>
      if resultForRetry r then
        (if cfg.hasKafka then
          [Effect.commitCall cfg.partition cfg.offset s.commitFails, Effect.sleep 1]
         else [Effect.sleep 1], false)
      else terminalStep cfg s

/-- `max_retries = 3` (mapping3.py line 194, mapping4.py line 144). -/
def max_retries : ℕ := 3

/-- Final state of the per-mapping loop: the effects emitted, whether
`next_condition` was reached (`false` means the retry budget ran out), and the
final `retry_count`. -/
structure RunOut where
  effects : List Effect
  done : Bool
  retries : ℕ
  deriving DecidableEq, Repr

/-- The per-mapping loop `while not next_condition and retry_count <
max_retries` of `process_mappings_async` (mapping3.py lines 196-254), driven
by the list of per-iteration environments. -/
def runLoop (cfg : Cfg) : List StepSpec → ℕ → RunOut
  | [], rc => ⟨[], false, rc⟩
  | s :: rest, rc =>
      if max_retries ≤ rc then ⟨[], false, rc⟩
      else
        let st := stepEffects cfg s
        if st.2 then ⟨st.1, true, rc⟩
        else
          let r := runLoop cfg rest (rc + 1)
          ⟨st.1 ++ r.effects, r.done, r.retries⟩

/-- Outcome of one attempt inside `process_single_mapping` (mapping4.py):
the engine call returned a value (`none` modelling Python `None`), or raised
(the `except` branch, which logs and moves to the next attempt with no
sleep). -/
inductive Outcome4
  | ret (r : Option Result)
  | raised
  deriving DecidableEq, Repr

/-- Retry test of mapping4.py line 174 applied to a returned value: Python
`None` is not in the retry set. -/
def isRetryOpt : Option Result → Bool
  | some r => resultForRetry r
  | none => false

/-- The `for attempt in range(max_retries)` body of `process_single_mapping`
(mapping4.py lines 146-187): a non-retryable return value is returned as is; a
retryable one logs, sleeps `2 ** attempt` seconds and continues; an exception
is logged and continues; falling off the loop returns
`Result.UNDEFINED_ERROR`. -/
def psmGo : List Outcome4 → ℕ → List Effect × Option Result
  | [], _ => ([], some Result.UNDEFINED_ERROR)
  | o :: rest, attempt =>
      match o with
      | Outcome4.raised => psmGo rest (attempt + 1)
      | Outcome4.ret r =>
          if isRetryOpt r then
            let k := psmGo rest (attempt + 1)
            (Effect.sleep ((2 : ℚ) ^ attempt) :: k.1, k.2)
          else ([], r)

/-- `process_single_mapping` (mapping4.py lines 130-187), driven by the
outcomes of its (at most `max_retries = 3`) attempts. -/
def process_single_mapping (outs : List Outcome4) : List Effect × Option Result :=
  psmGo (outs.take 3) 0

/-- Outcome of one future in `process_mapping_with_threads` (mapping4.py):
`future.result()` returned a value, or raised. -/
inductive TaskOutcome
  | ok (r : Option Result)
  | exc
  deriving DecidableEq, Repr

/-- Whether a task outcome is a normal return. -/
def isOk : TaskOutcome → Bool
  | TaskOutcome.ok _ => true
  | TaskOutcome.exc => false

/-- The result-collection loop of `process_mapping_with_threads` (mapping4.py
lines 17-41): results are appended as futures complete; an exception from
`future.result()` is caught and logged and nothing is appended for that task.
`as_completed` yields futures in completion order, which is abstracted here as
submission order; only the collection (not its order) is relied upon below. -/
def process_mapping_with_threads (tasks : List TaskOutcome) : List (Option Result) :=
  tasks.filterMap fun t =>
    match t with
    | TaskOutcome.ok r => some r
    | TaskOutcome.exc => none

/-- Shared concrete coordinator configuration: kafka client present,
partition 0, offset 42, no `time_commit` (so `timeleft = 0 < 1.5` and the
terminal branch commits immediately). -/
def cfg42 : Cfg := ⟨true, 0, 42, none, 0⟩

/-- A loop iteration whose dispatch attempt fails retryably and whose commit
(if any) succeeds. -/
def retryStep : StepSpec := ⟨DispatchOutcome.ret Result.ENGINE_INTERNAL_ERROR, false⟩

/-- Looking up the key just written returns the written value. -/
theorem getKey_setKey_self (e : List (String × EVal)) (k : String) (v : EVal) :
    getKey (setKey e k v) k = some v := by
  induction e with
  | nil => simp [setKey, getKey]
  | cons p rest ih =>
      obtain ⟨k1, v1⟩ := p
      by_cases h : k1 = k
      · simp [setKey, getKey, h]
      · simp [setKey, getKey, h, ih]

/-- Writing one key leaves every other key's lookup unchanged. -/
theorem getKey_setKey_of_ne (e : List (String × EVal)) (k key : String) (v : EVal)
    (h : ¬ key = k) : getKey (setKey e k v) key = getKey e key := by
  induction e with
  | nil =>
      simp only [setKey, getKey]
      rw [if_neg (fun hk => h hk.symm)]
  | cons p rest ih =>
      obtain ⟨k1, v1⟩ := p
      by_cases h1 : k1 = k
      · subst h1
        simp only [setKey, if_pos rfl, getKey]
        rw [if_neg (fun hk => h hk.symm), if_neg (fun hk => h hk.symm)]
      · simp only [setKey, if_neg h1, getKey, ih]

/-- Truthiness of an optional string lifted into the value type agrees with
`truthyOptStr`. -/
theorem truthyE_map_vstr (o : Option String) :
    truthyE (Option.map EVal.vstr o) = truthyOptStr o := by
  cases o <;> rfl

/-- A missing value is falsy. -/
theorem truthyE_none : truthyE none = false := rfl

/-- `None` is falsy. -/
theorem truthyE_vnone : truthyE (some EVal.vnone) = false := rfl

/-- Truthiness of a string value. -/
theorem truthyE_vstr (s : String) :
    truthyE (some (EVal.vstr s)) = if s = "" then false else true := rfl

/-- Truthiness of a dict value. -/
theorem truthyE_vdict (d : List (String × EVal)) :
    truthyE (some (EVal.vdict d)) = if d.isEmpty then false else true := rfl

/-- The while-loop of `process_mappings_async` consults at most
`max_retries - rc` further iteration environments. -/
theorem runLoop_take (cfg : Cfg) (steps : List StepSpec) (rc : ℕ) :
    runLoop cfg steps rc = runLoop cfg (steps.take (max_retries - rc)) rc := by
  induction steps generalizing rc with
  | nil => simp
  | cons s rest ih =>
      by_cases h : max_retries ≤ rc
      · have h0 : max_retries - rc = 0 := Nat.sub_eq_zero_of_le h
        rw [h0]
        simp [runLoop, h]
      · have h1 : max_retries - rc = (max_retries - (rc + 1)) + 1 := by omega
        rw [h1, List.take_succ_cons]
        simp only [runLoop, if_neg h]
        rw [ih (rc + 1)]

/-- Powers of two are at least one (used to compare the source's `2 **
attempt` with the spec's `max(1, 2 ** attempt)`). -/
theorem one_le_two_pow (i : ℕ) : (1 : ℚ) ≤ 2 ^ i := by
  induction i with
  | zero => norm_num
  | succ n ih => rw [pow_succ]; nlinarith

/-- Claim C1: for every retryable dispatch outcome (ENGINE_INTERNAL_ERROR,
ENGINE_CONNECTION_ERROR or TIMEOUT), the coordinator (when a kafka client is
present) commits the current offset — not offset + 1 — immediately, before the
pause and the next attempt; in particular, for the outcome sequence
[retryable, retryable, SUCCEED] at offset 42 the commits issued are 42, 42 and
finally 43. -/
theorem claim_C1_retry_commits_current_offset :
    (∀ (cfg : Cfg) (s : StepSpec) (r : Result), cfg.hasKafka = true →
      s.outcome = DispatchOutcome.ret r → resultForRetry r = true →
      stepEffects cfg s =
        ([Effect.commitCall cfg.partition cfg.offset s.commitFails, Effect.sleep 1],
         false)) ∧
    runLoop cfg42 [⟨DispatchOutcome.ret Result.ENGINE_INTERNAL_ERROR, false⟩,
        ⟨DispatchOutcome.ret Result.TIMEOUT, false⟩,
        ⟨DispatchOutcome.ret Result.SUCCEED, false⟩] 0 =
      ⟨[Effect.commitCall 0 42 false, Effect.sleep 1,
        Effect.commitCall 0 42 false, Effect.sleep 1,
        Effect.commitCall 0 43 false], true, 2⟩ := by
  constructor
  · intro cfg s r hk ho hr
    obtain ⟨o, cf⟩ := s
    simp only at ho
    subst ho
    simp [stepEffects, hr, hk]
  · norm_num [runLoop, stepEffects, terminalStep, timeleft, cfg42,
      resultForRetry, max_retries]

/-- Witness for C1 at a concrete retryable outcome. -/
theorem claim_C1_witness :
    stepEffects cfg42 ⟨DispatchOutcome.ret Result.TIMEOUT, false⟩ =
      ([Effect.commitCall 0 42 false, Effect.sleep 1], false) := by
  exact claim_C1_retry_commits_current_offset.1 cfg42
    ⟨DispatchOutcome.ret Result.TIMEOUT, false⟩ Result.TIMEOUT rfl rfl rfl

/-- Claim C2 is a code bug: the source computes `timeleft = time_commit -
time.time() * 1000` in milliseconds but compares it with the literal `1.5`
while logging "Time to commit less than 1.5 second.".  With the commit
deadline 1.0 s (= 1000 ms) away and a SUCCEED outcome at offset 7 the
coordinator defers (1000 < 1.5 is false) instead of committing 8 as the claim
states; 5.0 s away it also defers; only a deadline under 1.5 *milliseconds*
away triggers the immediate commit of offset + 1. -/
theorem claim_C2_millisecond_threshold :
    runLoop ⟨true, 0, 7, some 1000, 0⟩ [⟨DispatchOutcome.ret Result.SUCCEED, false⟩] 0 =
      ⟨[], true, 0⟩ ∧
    runLoop ⟨true, 0, 7, some 5000, 0⟩ [⟨DispatchOutcome.ret Result.SUCCEED, false⟩] 0 =
      ⟨[], true, 0⟩ ∧
    runLoop ⟨true, 0, 7, some 1, 0⟩ [⟨DispatchOutcome.ret Result.SUCCEED, false⟩] 0 =
      ⟨[Effect.commitCall 0 8 false], true, 0⟩ := by
  refine ⟨?_, ?_, ?_⟩ <;>
    norm_num [runLoop, stepEffects, terminalStep, timeleft, resultForRetry, max_retries]

/-- Counterexample to claim C3 as stated: in `process_mappings_async` the
pause after the second retryable outcome (attempt counter 1) is the fixed
1-second sleep, but `max(1, 2 ^ 1) = 2`; the stream-coupled path does not use
exponential backoff. -/
theorem claim_C3_counterexample :
    (runLoop cfg42 [retryStep, retryStep,
        ⟨DispatchOutcome.ret Result.SUCCEED, false⟩] 0).effects.get? 3 =
      some (Effect.sleep 1) ∧
    ¬ ((1 : ℚ) = max 1 (2 ^ (1 : ℕ))) := by
  constructor
  · norm_num [runLoop, stepEffects, terminalStep, timeleft, cfg42, retryStep,
      resultForRetry, max_retries]
  · norm_num

/-- Claim C3 amended: both retry loops make at most `max_retries = 3` attempts
(a 4th iteration environment is never consulted); the pool path
(`process_single_mapping`) sleeps exactly `2 ^ attempt` seconds after each
retryable result, and `2 ^ attempt` equals `max(1, 2 ^ attempt)`; the
stream-coupled path (`process_mappings_async`) instead sleeps a fixed 1 second
after each retryable result. -/
theorem claim_C3_amended_backoff :
    (∀ (cfg : Cfg) (steps : List StepSpec),
        runLoop cfg steps 0 = runLoop cfg (steps.take 3) 0) ∧
    (∀ outs : List Outcome4,
        process_single_mapping outs = process_single_mapping (outs.take 3)) ∧
    process_single_mapping [Outcome4.ret (some Result.ENGINE_INTERNAL_ERROR),
        Outcome4.ret (some Result.ENGINE_CONNECTION_ERROR),
        Outcome4.ret (some Result.TIMEOUT)] =
      ([Effect.sleep 1, Effect.sleep 2, Effect.sleep 4],
       some Result.UNDEFINED_ERROR) ∧
    (∀ i : ℕ, Effect.sleep ((2 : ℚ) ^ i) = Effect.sleep (max 1 ((2 : ℚ) ^ i))) ∧
    runLoop cfg42 [retryStep, retryStep, retryStep] 0 =
      ⟨[Effect.commitCall 0 42 false, Effect.sleep 1,
        Effect.commitCall 0 42 false, Effect.sleep 1,
        Effect.commitCall 0 42 false, Effect.sleep 1], false, 3⟩ := by
  refine ⟨?_, ?_, ?_, ?_, ?_⟩
  · intro cfg steps
    simpa [max_retries] using runLoop_take cfg steps 0
  · intro outs
    simp [process_single_mapping, List.take_take]
  · norm_num [process_single_mapping, psmGo, isRetryOpt, resultForRetry]
  · intro i
    rw [max_eq_right (one_le_two_pow i)]
  · norm_num [runLoop, stepEffects, terminalStep, timeleft, cfg42, retryStep,
      resultForRetry, max_retries]

/-- Claim C4: when all three attempts of `process_single_mapping` end in a
retryable result, the returned result is UNDEFINED_ERROR, whatever the last
retryable result was. -/
theorem claim_C4_exhaustion_undefined_error (r1 r2 r3 : Result)
    (h1 : resultForRetry r1 = true) (h2 : resultForRetry r2 = true)
    (h3 : resultForRetry r3 = true) :
    (process_single_mapping [Outcome4.ret (some r1), Outcome4.ret (some r2),
        Outcome4.ret (some r3)]).2 = some Result.UNDEFINED_ERROR := by
  simp [process_single_mapping, psmGo, isRetryOpt, h1, h2, h3]

/-- Witness for C4 with three distinct retryable results. -/
theorem claim_C4_witness :
    (process_single_mapping [Outcome4.ret (some Result.TIMEOUT),
        Outcome4.ret (some Result.ENGINE_CONNECTION_ERROR),
        Outcome4.ret (some Result.ENGINE_INTERNAL_ERROR)]).2 =
      some Result.UNDEFINED_ERROR :=
  claim_C4_exhaustion_undefined_error _ _ _ rfl rfl rfl

/-- Claim C5: when no playbook id resolves for the aoengine path — the
argument is falsy and the event's data holds no truthy `playbook_id` —
`run_playbook` returns INVALID_EVENT, leaves the event untouched and issues
zero network calls. -/
theorem claim_C5_invalid_event_no_network (event : Event)
    (playbook_id config_id : Option String) (extra_info : EVal)
    (http : HttpBehavior)
    (hpb : truthyOptStr playbook_id = false)
    (hdata : noDataPlaybook event = true) :
    run_playbook event playbook_id config_id extra_info http =
      RPOut.ok (some Result.INVALID_EVENT) event 0 := by
  unfold run_playbook resolvePb
  cases hd : getKey event "data" with
  | none =>
      simp [truthyE_none, truthyE_map_vstr, hpb]
  | some v =>
      cases v with
      | vnone =>
          simp [truthyE_vnone, truthyE_map_vstr, hpb]
      | vstr s =>
          have hs : s = "" := by
            simpa [noDataPlaybook, hd] using hdata
          simp [hs, truthyE_vstr, truthyE_map_vstr, hpb]
      | vdict d =>
          have hdpb : truthyE (getKey d "playbook_id") = false := by
            simpa [noDataPlaybook, hd] using hdata
          cases hde : d.isEmpty with
          | true => simp [truthyE_vdict, hde, truthyE_map_vstr, hpb]
          | false => simp [truthyE_vdict, hde, hpb, hdpb]

/-- Witness for C5 at a concrete event with no data section. -/
theorem claim_C5_witness :
    run_playbook [("tenant", EVal.vstr "t1")] none none EVal.vnone
        HttpBehavior.connError =
      RPOut.ok (some Result.INVALID_EVENT) [("tenant", EVal.vstr "t1")] 0 :=
  claim_C5_invalid_event_no_network _ none none _ _ rfl rfl

/-- Counterexample to claim C6 as stated: an HTTP status other than 200 and
500 (here 404) yields no defined result at all — the classification falls off
the end of the function and Python returns `None`. -/
theorem claim_C6_counterexample :
    (ingest (HttpBehavior.status 404)).isSome = false := rfl

/-- Claim C6 amended: HTTP 200 yields SUCCEED, HTTP 500 yields
ENGINE_INTERNAL_ERROR, a connection failure yields ENGINE_CONNECTION_ERROR,
exceeding the request timeout yields TIMEOUT, any other exception yields
UNDEFINED_ERROR, and any other HTTP status is unclassified: the call returns
no DispatchResult (Python `None`). -/
theorem claim_C6_amended_classification :
    ingest (HttpBehavior.status 200) = some Result.SUCCEED ∧
    ingest (HttpBehavior.status 500) = some Result.ENGINE_INTERNAL_ERROR ∧
    ingest HttpBehavior.connError = some Result.ENGINE_CONNECTION_ERROR ∧
    ingest HttpBehavior.timeoutErr = some Result.TIMEOUT ∧
    ingest HttpBehavior.otherExc = some Result.UNDEFINED_ERROR ∧
    ∀ n : ℕ, ¬ n = 200 → ¬ n = 500 → ingest (HttpBehavior.status n) = none := by
  refine ⟨rfl, rfl, rfl, rfl, rfl, ?_⟩
  intro n h1 h2
  simp [ingest, classifyResponse, h1, h2]

/-- Witness for C6 at the unclassified status 404 and the classified 200. -/
theorem claim_C6_witness :
    ingest (HttpBehavior.status 404) = none ∧
    ingest (HttpBehavior.status 200) = some Result.SUCCEED :=
  ⟨claim_C6_amended_classification.2.2.2.2.2 404 (by norm_num) (by norm_num),
   claim_C6_amended_classification.1⟩

/-- Counterexample to claim C7 as stated: a task whose future raises
contributes no result at all — the executor catches and logs the exception
but appends nothing, so one submitted task yields zero results, not one
UNDEFINED_ERROR. -/
theorem claim_C7_counterexample :
    process_mapping_with_threads [TaskOutcome.exc] = [] ∧
    ¬ (process_mapping_with_threads [TaskOutcome.exc]).length = 1 := by
  exact ⟨rfl, by decide⟩

/-- Claim C7 amended: a raising task does not abort its siblings — every
normally-returning task still contributes its result and the collection
continues — but the raising task itself is dropped from the results list (the
results list has one entry per non-raising task); conversion to
UNDEFINED_ERROR happens only inside `process_single_mapping`, which catches
engine exceptions per attempt and returns UNDEFINED_ERROR after its budget is
exhausted, so in the composed system futures do not raise. -/
theorem claim_C7_amended_executor :
    (∀ tasks : List TaskOutcome,
        (process_mapping_with_threads tasks).length = tasks.countP isOk) ∧
    (∀ rs : List (Option Result),
        process_mapping_with_threads (rs.map TaskOutcome.ok) = rs) ∧
    process_mapping_with_threads [TaskOutcome.ok (some Result.SUCCEED),
        TaskOutcome.exc, TaskOutcome.ok (some Result.TIMEOUT)] =
      [some Result.SUCCEED, some Result.TIMEOUT] ∧
    (process_single_mapping [Outcome4.raised, Outcome4.raised, Outcome4.raised]).2 =
      some Result.UNDEFINED_ERROR := by
  refine ⟨?_, ?_, by decide, by decide⟩
  · intro tasks
    induction tasks with
    | nil => rfl
    | cons t rest ih =>
        cases t <;>
          simp [process_mapping_with_threads, isOk, List.countP_cons] at ih ⊢ <;>
          omega
  · intro rs
    induction rs with
    | nil => rfl
    | cons r rest ih =>
        simp [process_mapping_with_threads] at ih ⊢
        exact ih

/-- Counterexample to claim C8 as stated: a failure of the *current-offset*
commit in the retry branch is caught by the generic per-attempt handler and
followed by the 1-second retry pause, not by the 10-unit pause the claim
requires after every failed commit. -/
theorem claim_C8_counterexample :
    (runLoop cfg42 [⟨DispatchOutcome.ret Result.ENGINE_INTERNAL_ERROR, true⟩,
        ⟨DispatchOutcome.ret Result.SUCCEED, false⟩] 0).effects =
      [Effect.commitCall 0 42 true, Effect.sleep 1, Effect.commitCall 0 43 false] ∧
    ¬ Effect.sleep 1 = Effect.sleep 10 := by
  constructor
  · norm_num [runLoop, stepEffects, terminalStep, timeleft, cfg42,
      resultForRetry, max_retries]
  · intro h
    injection h with h1
    norm_num at h1

/-- Claim C8 amended: only the terminal offset+1 commit has the dedicated
handler — its failure is caught, logged and followed by the 10-unit pause, and
the loop still reaches its terminal state without raising; a failure of the
current-offset commit in the retry branch is caught by the per-attempt
handler, counted as a retry and followed by the 1-second pause; in neither
case does the coordinator raise. -/
theorem claim_C8_amended_commit_failure :
    (∀ (cfg : Cfg) (s : StepSpec), cfg.hasKafka = true →
      s.outcome = DispatchOutcome.ret Result.SUCCEED → s.commitFails = true →
      timeleft cfg < 1.5 →
      stepEffects cfg s =
        ([Effect.commitCall cfg.partition (cfg.offset + 1) true, Effect.sleep 10],
         true)) ∧
    (∀ (cfg : Cfg) (s : StepSpec) (r : Result), cfg.hasKafka = true →
      s.outcome = DispatchOutcome.ret r → resultForRetry r = true →
      s.commitFails = true →
      stepEffects cfg s =
        ([Effect.commitCall cfg.partition cfg.offset true, Effect.sleep 1],
         false)) ∧
    runLoop cfg42 [⟨DispatchOutcome.ret Result.SUCCEED, true⟩] 0 =
      ⟨[Effect.commitCall 0 43 true, Effect.sleep 10], true, 0⟩ := by
  refine ⟨?_, ?_, ?_⟩
  · intro cfg s hk ho hcf hts
    obtain ⟨o, cf⟩ := s
    simp only at ho hcf
    subst ho
    subst hcf
    simp [stepEffects, resultForRetry, terminalStep, hk, hts]
  · intro cfg s r hk ho hr hcf
    obtain ⟨o, cf⟩ := s
    simp only at ho hcf
    subst ho
    subst hcf
    simp [stepEffects, hr, hk]
  · norm_num [runLoop, stepEffects, terminalStep, timeleft, cfg42,
      resultForRetry, max_retries]

/-- Witness for C8 at a concrete failing terminal commit. -/
theorem claim_C8_witness :
    stepEffects cfg42 ⟨DispatchOutcome.ret Result.SUCCEED, true⟩ =
      ([Effect.commitCall 0 43 true, Effect.sleep 10], true) := by
  exact claim_C8_amended_commit_failure.1 cfg42
    ⟨DispatchOutcome.ret Result.SUCCEED, true⟩ rfl rfl rfl
    (by norm_num [timeleft, cfg42])

/-- Counterexample to claim C10 as stated: when no playbook id resolves,
`run_playbook` returns before the `event["extra_info"] = extra_info`
assignment, so the overwrite is not unconditional — here the event keeps its
old `extra_info` value instead of the `None` argument. -/
theorem claim_C10_counterexample :
    run_playbook [("extra_info", EVal.vstr "old")] none none EVal.vnone
        (HttpBehavior.status 200) =
      RPOut.ok (some Result.INVALID_EVENT) [("extra_info", EVal.vstr "old")] 0 ∧
    ¬ (getKey [("extra_info", EVal.vstr "old")] "extra_info" = some EVal.vnone) := by
  refine ⟨rfl, ?_⟩
  intro h
  rw [show getKey [("extra_info", EVal.vstr "old")] "extra_info" =
      some (EVal.vstr "old") from rfl] at h
  exact EVal.noConfusion (Option.some.inj h)

/-- Claim C10 amended: whenever `run_playbook` returns, every key other than
"extra_info" is unchanged; when a request was sent (one network call) the
event's "extra_info" holds exactly the `extra_info` argument (including
`None`), and when no request was sent (the INVALID_EVENT path) the event is
entirely unchanged. -/
theorem claim_C10_amended_frame (event : Event)
    (playbook_id config_id : Option String) (extra_info : EVal)
    (http : HttpBehavior) (res : Option Result) (ev : Event) (n : ℕ)
    (h : run_playbook event playbook_id config_id extra_info http =
      RPOut.ok res ev n) :
    (∀ k : String, ¬ k = "extra_info" → getKey ev k = getKey event k) ∧
    (n = 1 → getKey ev "extra_info" = some extra_info) ∧
    (n = 0 → ev = event) := by
  unfold run_playbook at h
  split at h
  next => exact RPOut.noConfusion h
  next pb _ =>
    split at h
    next ht =>
      injection h with h1 h2 h3
      subst h1
      subst h2
      subst h3
      refine ⟨?_, ?_, ?_⟩
      · intro k hk
        exact getKey_setKey_of_ne event "extra_info" k extra_info hk
      · intro _
        exact getKey_setKey_self event "extra_info" extra_info
      · intro h0
        exact absurd h0 (by norm_num)
    next ht =>
      injection h with h1 h2 h3
      subst h1
      subst h2
      subst h3
      refine ⟨fun k _ => rfl, ?_, fun _ => rfl⟩
      intro h0
      exact absurd h0 (by norm_num)

/-- Witness for C10: a resolvable playbook id, a successful request, and the
frame facts at the returned event. -/
theorem claim_C10_witness :
    getKey [("a", EVal.vstr "x"), ("extra_info", EVal.vnone)] "a" =
      getKey [("a", EVal.vstr "x")] "a" ∧
    getKey [("a", EVal.vstr "x"), ("extra_info", EVal.vnone)] "extra_info" =
      some EVal.vnone := by
  have h := claim_C10_amended_frame [("a", EVal.vstr "x")] (some "p") none
    EVal.vnone (HttpBehavior.status 200) (some Result.SUCCEED)
    [("a", EVal.vstr "x"), ("extra_info", EVal.vnone)] 1 rfl
  exact ⟨h.1 "a" (by decide), h.2.1 rfl⟩

end MappingDispatch
